/-
Verification of the influencer discovery-and-qualification pipeline
(`InfluencerScraperV3Cloud.py`) against its design specification.

The embedding is shallow: scraped items are records with `Option`-valued
fields (a `none` models an absent key in the source dictionary), the
external scraping transport and the record store are passed in as explicit
values (`Except Unit` models a call that may throw), Python's arbitrary
precision integers are `Int`, Python floats are idealised as `ℚ`, and the
orchestrator is a pure function from an environment to the list of
observable events it performs (store reads, transport calls, row appends).
Python's stable `list.sort` is embedded as insertion sort, which is stable
for the same total preorder and hence produces the identical list.
Wall-clock timestamps written to the audit row are left abstract.
-/
import Mathlib

namespace InfluencerScraper

/-- A post item returned by the posts-scraping transport.  Each field models
an optional dictionary key of the source item (`takenAtTimestamp`,
`likesCount`, `commentsCount`); `none` means the key is absent. -/
structure Post where
  takenAtTimestamp : Option Int
  likesCount : Option Int
  commentsCount : Option Int
  deriving DecidableEq

/-- An item returned by the hashtag-scraping transport; the source reads
only the optional `ownerUsername` key. -/
structure HashtagItem where
  ownerUsername : Option String
  deriving DecidableEq

/-- An item returned by the profile-scraping transport, with the four
optional keys the source reads (`profilePicUrl`, `postsCount`,
`followersCount`, `biography`). -/
structure ProfileItem where
  profilePicUrl : Option String
  postsCount : Option Int
  followersCount : Option Int
  biography : Option String
  deriving DecidableEq

/-- The dictionary built by `scrape_profile_info` (missing fields already
defaulted). -/
structure ProfileRecord where
  username : String
  profile_pic_url : String
  posts_count : Int
  followers_count : Int
  biography : String
  deriving DecidableEq

/-- The sort key used at line 183 of the source:
`x.get("takenAtTimestamp", 0)` — a missing timestamp reads as `0`. -/
def tsKey (p : Post) : Int := p.takenAtTimestamp.getD 0

/-- The ordering `posts.sort(key=..., reverse=True)` establishes: most
recent (largest timestamp key) first. -/
def byTimestampDesc (a b : Post) : Prop := tsKey b ≤ tsKey a

instance : DecidableRel byTimestampDesc := fun a b => Int.decLe (tsKey b) (tsKey a)

instance : IsTotal Post byTimestampDesc :=
  ⟨fun a b => le_total (tsKey b) (tsKey a)⟩

instance : IsTrans Post byTimestampDesc :=
  ⟨fun _ _ _ h1 h2 => le_trans h2 h1⟩

/-- `int(np.median(l))` as evaluated by the source on a list of integers:
sort ascending, take the middle order statistic for odd length, and for
even length the arithmetic mean of the two middle order statistics
(a float), truncated toward zero by `int`. -/
def npMedian (l : List Int) : Int :=
  let s := List.insertionSort (fun a b : Int => a ≤ b) l
  let n := s.length
  if n % 2 = 1 then s.getD (n / 2) 0
  else Int.tdiv (s.getD (n / 2 - 1) 0 + s.getD (n / 2) 0) 2

/-- Modelled from the spec: the conventional integer median — the middle
order statistic of the sorted list when the length is odd, and for an
even-length list the interpolated midpoint of the two middle order
statistics truncated to an integer; `0` for an empty list (§3
ActivityStats invariant). -/
def medianTrunc (l : List Int) : Int :=
  if l.length = 0 then 0
  else
    let s := List.insertionSort (fun a b : Int => a ≤ b) l
    if l.length % 2 = 1 then s.getD (l.length / 2) 0
    else Int.tdiv (s.getD (l.length / 2 - 1) 0 + s.getD (l.length / 2) 0) 2

/-- `get_last_5_posts_stats` (source lines 167–194).  The transport call
`client.actor(...).call(...)` together with dataset iteration is modelled
by `transport username limit`; `Except.error` models a raised exception,
which the source catches, returning `(0, 0)`.  Otherwise the posts are
stably sorted by timestamp key descending, the first 8 are kept, likes and
comments counts are extracted with default `0`, and the two medians are
returned as `(median_likes, median_comments)`. -/
def get_last_5_posts_stats (transport : String → Nat → Except Unit (List Post))
    (username : String) (limit : Nat) : Int × Int :=
  match transport username limit with
  | .error _ => (0, 0)
  | .ok posts =>
    if posts = [] then (0, 0)
    else
      let sorted := List.insertionSort byTimestampDesc posts
      let recent_posts := sorted.take 8
      let likes_list := recent_posts.map (fun p => p.likesCount.getD 0)
      let comments_list := recent_posts.map (fun p => p.commentsCount.getD 0)
      if likes_list = [] then (0, 0)
      else (npMedian likes_list, npMedian comments_list)

/-- Modelled from the spec (§4.4): sort the fetched posts by timestamp
descending, keep the 8 most recent, and return the conventional truncated
integer median of likes and of comments independently; `(0, 0)` when no
posts are available. -/
def activityStatsSpec (posts : List Post) : Int × Int :=
  let window := (List.insertionSort byTimestampDesc posts).take 8
  (medianTrunc (window.map (fun p => p.likesCount.getD 0)),
   medianTrunc (window.map (fun p => p.commentsCount.getD 0)))

/-- The body of the dataset-iteration loop at source lines 106–108:
`unique_usernames.add(item["ownerUsername"])` when the key is present.
The Python `set` accumulator is modelled as a duplicate-free list built in
insertion order. -/
def record_owner (acc : List String) (item : HashtagItem) : List String :=
  match item.ownerUsername with
  | none => acc
  | some u => if u ∈ acc then acc else acc ++ [u]

/-- The body of the per-hashtag loop at source lines 97–110: one transport
call for the hashtag; a thrown call (`Except.error`) is caught and leaves
the accumulator unchanged, so remaining hashtags are still processed. -/
def collect_hashtag (transport : String → Nat → Except Unit (List HashtagItem))
    (results_limit : Nat) (acc : List String) (htag : String) : List String :=
  match transport htag results_limit with
  | .error _ => acc
  | .ok items => items.foldl record_owner acc

/-- `fetch_owner_usernames_from_hashtags` (source lines 90–112): the set
of distinct owner usernames accumulated across all hashtags. -/
def fetch_owner_usernames_from_hashtags
    (transport : String → Nat → Except Unit (List HashtagItem))
    (hashtags : List String) (results_limit : Nat) : List String :=
  hashtags.foldl (collect_hashtag transport results_limit) []

/-- `user_already_in_sheet` (source lines 114–123): reads the username
column of the Main worksheet (`col_values(2)`, modelled as an
`Except Unit (List String)` since the read may throw) and tests
membership; a read failure is caught and yields `false`. -/
def user_already_in_sheet (usernames_col : Except Unit (List String))
    (username : String) : Bool :=
  match usernames_col with
  | .error _ => false
  | .ok col => decide (username ∈ col)

/-- `scrape_profile_info` (source lines 125–147): takes the first item of
the profile-scrape result if any, defaulting each missing field; returns
`none` when the job returns zero items or throws. -/
def scrape_profile_info (transport : String → Except Unit (List ProfileItem))
    (username : String) : Option ProfileRecord :=
  match transport username with
  | .error _ => none
  | .ok [] => none
  | .ok (item :: _) =>
    some
      { username := username
        profile_pic_url := item.profilePicUrl.getD (String.mk [])
        posts_count := item.postsCount.getD 0
        followers_count := item.followersCount.getD 0
        biography := item.biography.getD (String.mk []) }

/-- The engagement-rate computation at source lines 241–244:
`(median_likes + median_comments) / followers * 100` when the follower
count is positive, else `0`.  Python float arithmetic is idealised as
exact rational arithmetic. -/
def compute_engagement_rate (median_likes median_comments : Int)
    (followers_count : Int) : ℚ :=
  if 0 < followers_count then
    (((median_likes : ℚ) + (median_comments : ℚ)) / (followers_count : ℚ)) * 100
  else 0

/-- The minus-sign character of a formatted number. -/
def strMinus : String := "-"

/-- The decimal point of a formatted number. -/
def strDot : String := "."

/-- The fixed base URL prepended to the identifier at source line 159. -/
def instagramBaseUrl : String := "https://www.instagram.com/"

/-- Rounding of an exact rational to the nearest integer with ties to even,
the rounding `f"{x:.2f}"` applies (idealising the float's binary value as
the exact rational). -/
def roundHalfEven (q : ℚ) : Int :=
  let f : Int := ⌊q⌋
  if q - (f : ℚ) < (1 : ℚ)/2 then f
  else if (1 : ℚ)/2 < q - (f : ℚ) then f + 1
  else if f % 2 = 0 then f else f + 1

/-- The two digits after the decimal point of `f"{x:.2f}"`, for `n` the
value rounded at two decimals and scaled by 100. -/
def fracPartStr (n : Int) : String :=
  String.mk [Nat.digitChar (n.natAbs / 10 % 10), Nat.digitChar (n.natAbs % 10)]

/-- The part of `f"{x:.2f}"` before the decimal point (sign and integer
part; a negative value rounding to zero drops its sign in this model). -/
def intPartStr (n : Int) : String :=
  (if n < 0 then strMinus else String.mk []) ++ toString (n.natAbs / 100)

/-- The Python format expression `f"{engagement_rate:.2f}"` at source line
162: the value rounded to exactly two decimal places and rendered with
exactly two digits after the decimal point. -/
def formatTwoDec (q : ℚ) : String :=
  intPartStr (roundHalfEven (q * 100)) ++ strDot ++ fracPartStr (roundHalfEven (q * 100))

/-- One cell of an appended spreadsheet row: the source appends both raw
strings and raw integers, so a cell is tagged with which it is. -/
inductive Cell where
  | str (s : String)
  | int (n : Int)
  deriving DecidableEq

/-- The row built by `append_profile_to_sheet` (source lines 149–164), in
source order; the two medians are stringified with `str(...)` and the
engagement rate is formatted with `f"{...:.2f}"`. -/
def append_profile_to_sheet (profile_data : ProfileRecord)
    (median_comments median_likes : Int) (engagement_rate : ℚ) : List Cell :=
  [Cell.str profile_data.profile_pic_url,
   Cell.str profile_data.username,
   Cell.int profile_data.posts_count,
   Cell.int profile_data.followers_count,
   Cell.str profile_data.biography,
   Cell.str (instagramBaseUrl ++ profile_data.username),
   Cell.str (toString median_comments),
   Cell.str (toString median_likes),
   Cell.str (formatTwoDec engagement_rate)]

/-- Python `str.strip()` on the underlying character list: drop leading
and trailing whitespace. -/
def pyStripList (s : List Char) : List Char :=
  ((s.dropWhile Char.isWhitespace).reverse.dropWhile Char.isWhitespace).reverse

/-- Python `str.strip()`. -/
def pyStrip (s : String) : String := String.mk (pyStripList s.data)

/-- Python `str.split(",")` on the underlying character list: the list of
maximal (possibly empty) groups between commas; structurally recursive so
it evaluates inside the kernel. -/
def pySplitCommaList : List Char → List (List Char)
  | [] => [[]]
  | c :: cs =>
    if c = ',' then [] :: pySplitCommaList cs
    else
      match pySplitCommaList cs with
      | [] => [c] :: []
      | g :: gs => (c :: g) :: gs

/-- Python `str.split(",")`. -/
def pySplitComma (s : String) : List String := (pySplitCommaList s.data).map String.mk

/-- The hashtag parse at source line 215:
`[tag.strip() for tag in hashtags_input.split(",") if tag.strip()]`. -/
def parse_hashtags (hashtags_input : String) : List String :=
  ((pySplitComma hashtags_input).map pyStrip).filter (fun t => t ≠ String.mk [])

/-- An observable action of one orchestrator run: the audit-row append,
the membership read, the two transport calls, and the record-store row
append.  The audit event carries the raw input and the resolved hashtag
list it persists (the wall-clock timestamp of the row is abstract). -/
inductive Event where
  | auditAppend (input_str : String) (hashtags : List String)
  | membershipCheck (username : String)
  | enrichCall (username : String)
  | sampleCall (username : String)
  | persistRow (row : List Cell)
  deriving DecidableEq

/-- Whether an event is a primary-record-store row append. -/
def isPersistEvent : Event → Bool
  | .persistRow _ => true
  | _ => false

/-- The external world one orchestrator run interacts with: the three
scraping-transport endpoints and the username column of the Main
worksheet as read by the membership filter. -/
structure Env where
  hashtagTransport : String → Nat → Except Unit (List HashtagItem)
  profileTransport : String → Except Unit (List ProfileItem)
  postsTransport : String → Nat → Except Unit (List Post)
  mainUsernameCol : Except Unit (List String)

/-- The per-candidate body of the orchestrator loop (source lines
229–251), as the list of events it performs: membership check; on a miss,
the profile-enrichment call; given a profile, the first gate
`followers_count > 1000 and posts_count > 5`; then the activity-sampler
call with limit 30, the engagement-rate computation, the threshold
`engagement_rate < 0.5 → skip`, and otherwise the row append. -/
def process_username (env : Env) (username : String) : List Event :=
  Event.membershipCheck username ::
    (if user_already_in_sheet env.mainUsernameCol username then []
     else
       Event.enrichCall username ::
         (match scrape_profile_info env.profileTransport username with
          | none => []
          | some profile_data =>
            if 1000 < profile_data.followers_count ∧ 5 < profile_data.posts_count then
              let stats := get_last_5_posts_stats env.postsTransport username 30
              Event.sampleCall username ::
                (let engagement_rate :=
                  compute_engagement_rate stats.1 stats.2 profile_data.followers_count
                 if engagement_rate < (1 : ℚ)/2 then []
                 else
                   [Event.persistRow
                     (append_profile_to_sheet profile_data stats.2 stats.1 engagement_rate)])
            else []))

/-- The button-press branch of `main` (source lines 209–253) as the list
of events one run performs: blank-input validation (terminal, no events),
the hashtag parse with its own empty check (terminal, no events), the
unconditional audit append, candidate resolution, and the per-candidate
loop. -/
def main_run (env : Env) (hashtags_input : String) (results_limit : Nat) : List Event :=
  if pyStrip hashtags_input = String.mk [] then []
  else
    let hashtags := parse_hashtags hashtags_input
    if hashtags = [] then []
    else
      Event.auditAppend hashtags_input hashtags ::
        (fetch_owner_usernames_from_hashtags env.hashtagTransport hashtags
            results_limit).flatMap (process_username env)

/-! Concrete test data used by the closed witness theorems. -/

/-- A one-comma input: non-blank, but yielding no valid hashtag. -/
def strComma : String := ","

/-- A single-hashtag input. -/
def strTagA : String := "#a"

/-- A concrete candidate identifier. -/
def strAlice : String := "alice"

/-- A concrete avatar URL. -/
def strPic : String := "http://pic"

/-- A concrete biography. -/
def strBio : String := "bio"

/-- The header cell of the Main worksheet's username column, which
`col_values(2)` returns along with the data rows. -/
def strUsernameHeader : String := "Username"

/-- An environment in which every external call throws and the store read
fails. -/
def emptyEnv : Env where
  hashtagTransport := fun _ _ => .error ()
  profileTransport := fun _ => .error ()
  postsTransport := fun _ _ => .error ()
  mainUsernameCol := .error ()

/-- Two concrete posts, most recent one first after sorting; the likes
median exercises the even-length interpolation case:
likes sorted are `[10, 20]`, midpoint `15`. -/
def samplePosts : List Post :=
  [{ takenAtTimestamp := some 2, likesCount := some 20, commentsCount := some 5 },
   { takenAtTimestamp := some 1, likesCount := some 10, commentsCount := some 5 }]

/-- The profile record the enricher builds from `richEnv`. -/
def richPD : ProfileRecord where
  username := strAlice
  profile_pic_url := strPic
  posts_count := 10
  followers_count := 2000
  biography := strBio

/-- An environment in which every call succeeds: the profile has 2000
followers and 10 posts, and the sampler sees `samplePosts`, giving
medians `(15, 5)` and an engagement rate of `1`. -/
def richEnv : Env where
  hashtagTransport := fun _ _ => .ok [{ ownerUsername := some strAlice }]
  profileTransport := fun _ =>
    .ok [{ profilePicUrl := some strPic
           postsCount := some 10
           followersCount := some 2000
           biography := some strBio }]
  postsTransport := fun _ _ => .ok samplePosts
  mainUsernameCol := .ok []

/-- An environment whose Main-worksheet username column already contains
the candidate `strAlice` (after the header cell). -/
def memberEnv : Env where
  hashtagTransport := fun _ _ => .error ()
  profileTransport := fun _ => .error ()
  postsTransport := fun _ _ => .error ()
  mainUsernameCol := .ok [strUsernameHeader, strAlice]

/-! Helper lemmas shared between the claim theorems. -/

/-- The two median functions — `int(np.median(...))` as the code computes
it and the conventional truncated median the spec describes — agree on
every list. -/
theorem helper_npMedian_eq_medianTrunc (l : List Int) : npMedian l = medianTrunc l := by
  unfold npMedian medianTrunc
  rcases eq_or_ne l [] with rfl | hl
  · simp [List.insertionSort]
  · have hlen : (List.insertionSort (fun a b : Int => a ≤ b) l).length = l.length :=
      (List.perm_insertionSort _ l).length_eq
    have h0 : l.length ≠ 0 := fun h => hl (List.length_eq_zero.mp h)
    simp only [hlen, if_neg h0]

/-- Adding one scraped item to the accumulator preserves freedom from
duplicates. -/
theorem helper_record_owner_nodup (acc : List String) (item : HashtagItem)
    (h : acc.Nodup) : (record_owner acc item).Nodup := by
  unfold record_owner
  cases item.ownerUsername with
  | none => exact h
  | some u =>
    show (if u ∈ acc then acc else acc ++ [u]).Nodup
    by_cases hu : u ∈ acc
    · simpa [hu]
    · rw [if_neg hu]
      have : (u :: acc).Nodup := List.nodup_cons.mpr ⟨hu, h⟩
      exact ((List.perm_append_singleton u acc).nodup_iff).mpr this

/-- Folding `record_owner` over the items of one result set preserves
freedom from duplicates. -/
theorem helper_fold_record_owner_nodup (items : List HashtagItem) :
    ∀ acc : List String, acc.Nodup → (items.foldl record_owner acc).Nodup := by
  induction items with
  | nil => exact fun acc h => h
  | cons item rest ih =>
    intro acc h
    exact ih (record_owner acc item) (helper_record_owner_nodup acc item h)

/-- Processing one hashtag preserves freedom from duplicates. -/
theorem helper_collect_hashtag_nodup
    (transport : String → Nat → Except Unit (List HashtagItem))
    (results_limit : Nat) (acc : List String) (htag : String)
    (h : acc.Nodup) : (collect_hashtag transport results_limit acc htag).Nodup := by
  unfold collect_hashtag
  cases transport htag results_limit with
  | error e => exact h
  | ok items => exact helper_fold_record_owner_nodup items acc h

/-- Folding the per-hashtag step over any hashtag list preserves freedom
from duplicates. -/
theorem helper_fetch_nodup
    (transport : String → Nat → Except Unit (List HashtagItem))
    (results_limit : Nat) (hashtags : List String) :
    ∀ acc : List String, acc.Nodup →
      (hashtags.foldl (collect_hashtag transport results_limit) acc).Nodup := by
  induction hashtags with
  | nil => exact fun acc h => h
  | cons htag rest ih =>
    intro acc h
    exact ih _ (helper_collect_hashtag_nodup transport results_limit acc htag h)

/-! The claim theorems. -/

/-- Claim C3, counterexample: the input consisting of a single comma is
non-empty and not all-whitespace, yet the run performs no event at all —
in particular no audit append — because the second validation gate
(`if not hashtags:`) returns before `append_hashtags_to_sheet` is
reached. -/
theorem claim_C3_counterexample :
    pyStrip strComma ≠ String.mk [] ∧ main_run emptyEnv strComma 50 = [] := by
  constructor
  · decide
  · decide

/-- Claim C3 (amended): for every input that is not all-whitespace and
whose comma-split yields at least one non-empty trimmed hashtag, the
orchestrator appends the audit row (raw input string and resolved hashtag
list; timestamp abstract) unconditionally — before any candidate is
resolved, hence even when zero candidates qualify. -/
theorem claim_C3_amended (env : Env) (hashtags_input : String) (results_limit : Nat)
    (h1 : pyStrip hashtags_input ≠ String.mk [])
    (h2 : parse_hashtags hashtags_input ≠ []) :
    Event.auditAppend hashtags_input (parse_hashtags hashtags_input)
      ∈ main_run env hashtags_input results_limit := by
  unfold main_run
  rw [if_neg h1]
  simp only [if_neg h2]
  exact List.mem_cons_self _ _

/-- Claim C3, witness: on the concrete input `"#a"` (with every external
call failing, so certainly zero candidates qualify) the audit append is
performed. -/
theorem claim_C3_witness :
    Event.auditAppend strTagA (parse_hashtags strTagA)
      ∈ main_run emptyEnv strTagA 50 :=
  claim_C3_amended emptyEnv strTagA 50 (by decide) (by decide)

/-- Claim C4: the engagement rate equals
`(median_likes + median_comments) / follower_count * 100` whenever the
follower count is positive, and equals `0` whenever it is zero or
negative.  The function is total on all integer inputs (the model is a
total function into `ℚ`), so no input yields an error or NaN. -/
theorem claim_C4 (median_likes median_comments followers_count : Int) :
    (0 < followers_count →
      compute_engagement_rate median_likes median_comments followers_count =
        (((median_likes : ℚ) + (median_comments : ℚ)) / (followers_count : ℚ)) * 100) ∧
    (followers_count ≤ 0 →
      compute_engagement_rate median_likes median_comments followers_count = 0) := by
  constructor
  · intro h
    unfold compute_engagement_rate
    rw [if_pos h]
  · intro h
    unfold compute_engagement_rate
    rw [if_neg (not_lt.mpr h)]

/-- Claim C4, witness: at `median_likes = 15`, `median_comments = 5`,
`followers_count = 2000` the positive branch applies. -/
theorem claim_C4_witness :
    compute_engagement_rate 15 5 2000 = (((15 : ℚ) + (5 : ℚ)) / ((2000 : Int) : ℚ)) * 100 :=
  (claim_C4 15 5 2000).1 (by decide)

/-- Claim C7: the activity sampler returns the defined pair `(0, 0)` both
when the posts transport throws and when it returns zero posts; being a
total function, it propagates no error to its caller. -/
theorem claim_C7 (transport : String → Nat → Except Unit (List Post))
    (username : String) (limit : Nat) :
    (transport username limit = .error () →
      get_last_5_posts_stats transport username limit = (0, 0)) ∧
    (transport username limit = .ok [] →
      get_last_5_posts_stats transport username limit = (0, 0)) := by
  constructor <;> intro h <;> simp [get_last_5_posts_stats, h]

/-- Claim C7, witness: a transport that always throws yields `(0, 0)`. -/
theorem claim_C7_witness :
    get_last_5_posts_stats emptyEnv.postsTransport strAlice 30 = (0, 0) :=
  (claim_C7 emptyEnv.postsTransport strAlice 30).1 rfl

/-- Claim C8: when the store read of the username column fails, the
membership filter returns `false` — the candidate is treated as not yet
present — and the per-candidate pipeline continues into the enrichment
stage instead of aborting. -/
theorem claim_C8 (env : Env) (username : String)
    (h : env.mainUsernameCol = .error ()) :
    user_already_in_sheet env.mainUsernameCol username = false ∧
    Event.enrichCall username ∈ process_username env username := by
  have hfalse : user_already_in_sheet env.mainUsernameCol username = false := by
    rw [h]
    rfl
  refine ⟨hfalse, ?_⟩
  simp [process_username, hfalse]

/-- Claim C8, witness: in the environment whose store read fails, the
candidate `strAlice` is treated as new and the enrichment call happens. -/
theorem claim_C8_witness :
    user_already_in_sheet emptyEnv.mainUsernameCol strAlice = false ∧
    Event.enrichCall strAlice ∈ process_username emptyEnv strAlice :=
  claim_C8 emptyEnv strAlice rfl

/-- Claim C6: a candidate whose identifier is already present in the Main
table's username column (the membership read having succeeded) is
short-circuited: the run performs only the membership check for it — no
enrichment call, no sampler call, no row append. -/
theorem claim_C6 (env : Env) (username : String) (col : List String)
    (hcol : env.mainUsernameCol = .ok col) (hmem : username ∈ col) :
    process_username env username = [Event.membershipCheck username] := by
  have htrue : user_already_in_sheet env.mainUsernameCol username = true := by
    rw [hcol]
    exact decide_eq_true hmem
  simp [process_username, htrue]

/-- Claim C6, witness: with `strAlice` already present in the stored
username column, processing it performs the membership check and nothing
else. -/
theorem claim_C6_witness :
    process_username memberEnv strAlice = [Event.membershipCheck strAlice] :=
  claim_C6 memberEnv strAlice [strUsernameHeader, strAlice] rfl (by decide)

/-- Claim C5: the candidate list the hashtag resolver returns is free of
duplicates for every transport, hashtag list (repeated hashtag strings
included) and limit, so every identifier occurs at most once in the list
the orchestrator loop iterates over. -/
theorem claim_C5 (transport : String → Nat → Except Unit (List HashtagItem))
    (hashtags : List String) (results_limit : Nat) :
    (fetch_owner_usernames_from_hashtags transport hashtags results_limit).Nodup ∧
    ∀ username : String,
      (fetch_owner_usernames_from_hashtags transport hashtags results_limit).count
        username ≤ 1 := by
  have hnd : (fetch_owner_usernames_from_hashtags transport hashtags results_limit).Nodup :=
    helper_fetch_nodup transport results_limit hashtags [] List.nodup_nil
  exact ⟨hnd, fun username => List.nodup_iff_count_le_one.mp hnd username⟩

/-- Claim C9: the row appended for a qualified record has exactly nine
cells, in the order avatar URL, identifier, posts count, followers count,
biography, derived profile URL (the fixed base URL concatenated with the
identifier), median comments as text, median likes as text, and the
engagement rate formatted with exactly two digits after the decimal
point. -/
theorem claim_C9 (profile_data : ProfileRecord)
    (median_comments median_likes : Int) (engagement_rate : ℚ) :
    (append_profile_to_sheet profile_data median_comments median_likes
        engagement_rate).length = 9 ∧
    append_profile_to_sheet profile_data median_comments median_likes engagement_rate =
      [Cell.str profile_data.profile_pic_url,
       Cell.str profile_data.username,
       Cell.int profile_data.posts_count,
       Cell.int profile_data.followers_count,
       Cell.str profile_data.biography,
       Cell.str (instagramBaseUrl ++ profile_data.username),
       Cell.str (toString median_comments),
       Cell.str (toString median_likes),
       Cell.str (formatTwoDec engagement_rate)] ∧
    formatTwoDec engagement_rate =
      intPartStr (roundHalfEven (engagement_rate * 100)) ++ strDot ++
        fracPartStr (roundHalfEven (engagement_rate * 100)) ∧
    (fracPartStr (roundHalfEven (engagement_rate * 100))).length = 2 :=
  ⟨rfl, rfl, rfl, rfl⟩

/-- Claim C1: for every list of fetched posts, the activity sampler's
result equals the spec-side statistic — the posts sorted by timestamp key
descending (a missing timestamp reads as key `0` and so sorts as oldest
among real, non-negative timestamps), the first 8 kept (all of them when
fewer, whatever the caller-supplied fetch limit was), and the
conventional truncated integer median of likes and of comments computed
independently with absent counts defaulting to `0`.  The remaining
conjuncts pin the sort down: it is a permutation of the fetched posts,
ordered descending by timestamp key, and the kept window has length
`min 8 (number of posts)`. -/
theorem claim_C1 (transport : String → Nat → Except Unit (List Post))
    (username : String) (limit : Nat) (posts : List Post)
    (h : transport username limit = .ok posts) :
    get_last_5_posts_stats transport username limit = activityStatsSpec posts ∧
    List.Perm (List.insertionSort byTimestampDesc posts) posts ∧
    (List.insertionSort byTimestampDesc posts).Pairwise byTimestampDesc ∧
    ((List.insertionSort byTimestampDesc posts).take 8).length = min 8 posts.length := by
  have hlen : ((List.insertionSort byTimestampDesc posts).take 8).length
      = min 8 posts.length := by
    rw [List.length_take, (List.perm_insertionSort byTimestampDesc posts).length_eq]
  refine ⟨?_, List.perm_insertionSort _ _, List.sorted_insertionSort _ _, hlen⟩
  simp only [get_last_5_posts_stats, h]
  rcases eq_or_ne posts [] with rfl | hne
  · simp [activityStatsSpec, medianTrunc, List.insertionSort]
  · rw [if_neg hne]
    have hwin : (List.insertionSort byTimestampDesc posts).take 8 ≠ [] := by
      intro hz
      rw [hz] at hlen
      have hpos : 0 < min 8 posts.length :=
        Nat.lt_min.mpr ⟨by norm_num, List.length_pos.mpr hne⟩
      rw [← hlen] at hpos
      exact Nat.lt_irrefl 0 hpos
    have hlikes : ((List.insertionSort byTimestampDesc posts).take 8).map
        (fun p => p.likesCount.getD 0) ≠ [] := by
      simpa using hwin
    rw [if_neg hlikes, helper_npMedian_eq_medianTrunc, helper_npMedian_eq_medianTrunc]
    rfl

/-- Claim C1, witness: on the concrete two-post transport result of
`richEnv` (an even-length list exercising the interpolated-midpoint
case) the sampler matches the spec-side statistic. -/
theorem claim_C1_witness :
    get_last_5_posts_stats richEnv.postsTransport strAlice 30 =
      activityStatsSpec samplePosts :=
  (claim_C1 richEnv.postsTransport strAlice 30 samplePosts rfl).1

/-- Claim C2: given a candidate that passes the membership filter and was
successfully enriched, and given the medians the sampler returns for it,
the run persists a row for the candidate if and only if
`followers_count > 1000` (strict) and `posts_count > 5` (strict) and the
engagement rate is at least `0.5`.  In particular a profile with exactly
1000 followers, or exactly 5 posts, or a rate strictly below `0.5`, is
rejected and no row is appended. -/
theorem claim_C2 (env : Env) (username : String) (profile_data : ProfileRecord)
    (median_likes median_comments : Int)
    (hmember : user_already_in_sheet env.mainUsernameCol username = false)
    (hprofile : scrape_profile_info env.profileTransport username = some profile_data)
    (hstats : get_last_5_posts_stats env.postsTransport username 30 =
      (median_likes, median_comments)) :
    ((Event.persistRow (append_profile_to_sheet profile_data median_comments
        median_likes (compute_engagement_rate median_likes median_comments
          profile_data.followers_count)) ∈ process_username env username) ↔
      (1000 < profile_data.followers_count ∧ 5 < profile_data.posts_count ∧
        (1 : ℚ)/2 ≤ compute_engagement_rate median_likes median_comments
          profile_data.followers_count)) := by
  have hbody : process_username env username =
      Event.membershipCheck username :: Event.enrichCall username ::
        (if 1000 < profile_data.followers_count ∧ 5 < profile_data.posts_count then
          Event.sampleCall username ::
            (if compute_engagement_rate median_likes median_comments
                profile_data.followers_count < (1 : ℚ)/2 then []
             else
               [Event.persistRow (append_profile_to_sheet profile_data median_comments
                  median_likes (compute_engagement_rate median_likes median_comments
                    profile_data.followers_count))])
         else []) := by
    simp only [process_username, hmember, Bool.false_eq_true, if_false, hprofile, hstats]
  rw [hbody]
  by_cases hg : 1000 < profile_data.followers_count ∧ 5 < profile_data.posts_count
  · rw [if_pos hg]
    by_cases hr : compute_engagement_rate median_likes median_comments
        profile_data.followers_count < (1 : ℚ)/2
    · rw [if_pos hr]
      constructor
      · intro hmem2
        exfalso
        simp at hmem2
      · intro hc
        exact absurd hc.2.2 (not_le.mpr hr)
    · rw [if_neg hr]
      constructor
      · intro _
        exact ⟨hg.1, hg.2, not_lt.mp hr⟩
      · intro _
        simp
  · rw [if_neg hg]
    constructor
    · intro hmem2
      exfalso
      simp at hmem2
    · intro hc
      exact absurd ⟨hc.1, hc.2.1⟩ hg

/-- Claim C2, witness: in `richEnv` (2000 followers, 10 posts, medians
`(15, 5)`, rate `1`) the candidate qualifies and the row-append event for
it is performed. -/
theorem claim_C2_witness :
    Event.persistRow (append_profile_to_sheet richPD 5 15
        (compute_engagement_rate 15 5 richPD.followers_count))
      ∈ process_username richEnv strAlice :=
  (claim_C2 richEnv strAlice richPD 15 5 (by decide) (by decide) (by decide)).mpr
    ⟨by decide, by decide, by norm_num [compute_engagement_rate, richPD]⟩

/-- Claim C10: whenever a run reaches the sampler call — and therefore
the engagement-rate computation that immediately follows it — for a
candidate enriched to `profile_data`, the first gate has already passed,
so `followers_count > 1000`; consequently the `followers_count > 0`
guard takes its positive branch for every pair of medians, the
`rate = 0` else-branch is unreachable, and the division is never by
zero. -/
theorem claim_C10 (env : Env) (username : String) (profile_data : ProfileRecord)
    (median_likes median_comments : Int)
    (hprofile : scrape_profile_info env.profileTransport username = some profile_data)
    (hreach : Event.sampleCall username ∈ process_username env username) :
    1000 < profile_data.followers_count ∧
      compute_engagement_rate median_likes median_comments profile_data.followers_count =
        (((median_likes : ℚ) + (median_comments : ℚ)) /
          ((profile_data.followers_count : Int) : ℚ)) * 100 := by
  have hgate : 1000 < profile_data.followers_count := by
    by_cases hm : user_already_in_sheet env.mainUsernameCol username = true
    · simp [process_username, hm] at hreach
    · rw [Bool.not_eq_true] at hm
      by_cases hg : 1000 < profile_data.followers_count ∧ 5 < profile_data.posts_count
      · exact hg.1
      · simp [process_username, hm, hprofile, hg] at hreach
  refine ⟨hgate, ?_⟩
  unfold compute_engagement_rate
  rw [if_pos (lt_trans (by norm_num) hgate)]

/-- Claim C10, witness: in `richEnv` the sampler is reached for
`strAlice`, and the rate computation there is the division branch. -/
theorem claim_C10_witness :
    1000 < richPD.followers_count ∧
      compute_engagement_rate 15 5 richPD.followers_count =
        (((15 : ℚ) + (5 : ℚ)) / ((richPD.followers_count : Int) : ℚ)) * 100 :=
  claim_C10 richEnv strAlice richPD 15 5 (by decide)
    (by
      have hm : user_already_in_sheet richEnv.mainUsernameCol strAlice = false := by decide
      have hp : scrape_profile_info richEnv.profileTransport strAlice = some richPD := by
        decide
      have hg : 1000 < richPD.followers_count ∧ 5 < richPD.posts_count := by decide
      simp [process_username, hm, hp, hg])

end InfluencerScraper
